import Mathlib

/-
Verification of the servo-calibration sketch (src/servo-calibration.ino).

The sketch is shallowly embedded below.  The target is an 8-bit AVR Arduino,
so the C type unsigned int is 16 bits wide and unsigned long is 32 bits wide;
both are modelled as Nat with explicit reduction modulo 2^16 respectively
2^32 wherever the C arithmetic can wrap (addition and subtraction).  Raw
analog samples are integers in [0, 1023].  The hardware collaborators
(analogRead, digitalRead, millis, Serial) are modelled by passing finite
lists of scripted (sample, time) pairs and by collecting the printed report
lines as structured records.
-/

namespace ServoCalib

/-- Largest raw ADC reading (constant MAX_ADC in the source). -/
def MAX_ADC : Nat := 1023

/-- Smallest raw ADC reading (constant MIN_ADC in the source). -/
def MIN_ADC : Nat := 0

/-- Absolute cap for the half dead band (constant FIXED_DEAD_BAND in
the source). -/
def FIXED_DEAD_BAND : Nat := 40

/-- Modulus of the AVR type unsigned int (16 bits, 2 to the 16). -/
def UINT_MOD : Nat := 65536

/-- Modulus of the AVR type unsigned long (32 bits, 2 to the 32). -/
def ULONG_MOD : Nat := 4294967296

/-- Addition of two unsigned int values, wrapping modulo 2 to the 16. -/
def uadd (a b : Nat) : Nat := (a + b) % UINT_MOD

/-- Subtraction of two unsigned int values, wrapping below zero. -/
def usub (a b : Nat) : Nat := (a % UINT_MOD + (UINT_MOD - b % UINT_MOD)) % UINT_MOD

/-- Subtraction of two unsigned long values, wrapping below zero. -/
def usub32 (a b : Nat) : Nat := (a % ULONG_MOD + (ULONG_MOD - b % ULONG_MOD)) % ULONG_MOD

/-- Function getAdcBoolean of the source, as a function of the raw sample,
of the global adcState it reads, and of the two stored thresholds
(threshold[false] and threshold[true]).  The source function returns the
new boolean state and writes no global: when the current state is HIGH it
returns false exactly for samples at or below the low threshold, when the
current state is LOW it returns true exactly for samples at or above the
high threshold, and otherwise it returns the current state unchanged. -/
def getAdcBoolean (adc : Nat) (adcState : Bool) (thresholdLow thresholdHigh : Nat) : Bool :=
  if adcState then
    if adc ≤ thresholdLow then false else adcState
  else
    if thresholdHigh ≤ adc then true else adcState

/-- Contents of the two-element global array threshold of the source:
low is threshold[false] and high is threshold[true].  Before calibration
the array holds the observed range, afterwards the dead-band limits. -/
structure ThresholdState where
  low : Nat
  high : Nat
deriving DecidableEq

/-- Median step of calibrateBooleanSense:
(threshold[false] + threshold[true]) / 2 in unsigned int arithmetic,
integer division rounding down. -/
def medianOf (t : ThresholdState) : Nat := (uadd t.low t.high) / 2

/-- Extent step of calibrateBooleanSense:
threshold[true] - threshold[false] in unsigned int arithmetic; an inverted
range wraps around below zero. -/
def extentOf (t : ThresholdState) : Nat := usub t.high t.low

/-- Half-band step of calibrateBooleanSense:
min(extent * DEAD_BAND_FACTOR, FIXED_DEAD_BAND) with DEAD_BAND_FACTOR 0.25.
For every extent below 2 to the 24 the float product extent * 0.25 is exact
(extent is exactly representable and the factor is a power of two), and the
assignment of the float result back to the unsigned int variable truncates
toward zero, so the stored value is exactly min (extent / 4) 40 with integer
division. -/
def halfBandOf (extent : Nat) : Nat := min (extent / 4) FIXED_DEAD_BAND

/-- Function calibrateBooleanSense of the source: overwrites the global
threshold array with the dead-band limits median - halfBand and
median + halfBand computed from the range currently stored in that same
array, in unsigned int arithmetic. -/
def calibrateBooleanSense (t : ThresholdState) : ThresholdState :=
  let median := medianOf t
  let halfBand := halfBandOf (extentOf t)
  ⟨usub median halfBand, uadd median halfBand⟩

/-
Range sampler (function getActiveSenseRange of the source).
-/

/-- State of getActiveSenseRange while the sampling loop runs: the threshold
array holding the observed range so far, plus the local flag newLimit, which
the source declares and initializes to false once, before the loop, and
never resets inside the loop. -/
structure RangeState where
  low : Nat
  high : Nat
  newLimit : Bool
deriving DecidableEq

/-- Data of one progress line printed by getActiveSenseRange: the two
current bounds and the millis() timestamp of the print. -/
structure RangeReport where
  low : Nat
  high : Nat
  time : Nat
deriving DecidableEq

/-- One iteration of the while loop of getActiveSenseRange, fed one raw
sample and the millis() value at that iteration: a sample below the low
bound lowers it, a sample above the high bound raises it, either change
sets newLimit, and a progress line is printed whenever newLimit holds. -/
def rangeStep (s : RangeState) (value now : Nat) : RangeState × Option RangeReport :=
  let s1 := if value < s.low then { s with low := value, newLimit := true } else s
  let s2 := if s1.high < value then { s1 with high := value, newLimit := true } else s1
  (s2, if s2.newLimit then some ⟨s2.low, s2.high, now⟩ else none)

/-- Function getActiveSenseRange run over a finite list of (sample, millis)
pairs read while the calibration line stays HIGH: the threshold array starts
at the inverted extremes (MAX_ADC, MIN_ADC) and every iteration is one
rangeStep; the returned list collects the printed progress lines in order. -/
def getActiveSenseRange (samples : List (Nat × Nat)) : RangeState × List RangeReport :=
  samples.foldl
    (fun acc vt =>
      let step := rangeStep acc.1 vt.1 vt.2
      (step.1, acc.2 ++ step.2.toList))
    (⟨MAX_ADC, MIN_ADC, false⟩, [])

/-
Rotation synchronizer (function synchronizeToRotation of the source).
-/

/-- Globals that a getAdcBoolean invocation can touch: the persistent
boolean adcState and the two thresholds. -/
structure SenseGlobals where
  adcState : Bool
  thresholdLow : Nat
  thresholdHigh : Nat
deriving DecidableEq

/-- One invocation of getAdcBoolean viewed as a state transformer on the
globals it can access: it returns the detected boolean and leaves every
global exactly as it was, because the source function only reads adcState
and the thresholds and writes nothing. -/
def getAdcBooleanCall (g : SenseGlobals) (adc : Nat) : Bool × SenseGlobals :=
  (getAdcBoolean adc g.adcState g.thresholdLow g.thresholdHigh, g)

/-- First wait of synchronizeToRotation: spin while getAdcBoolean() returns
true, consuming one (sample, millis) pair per invocation; yields the globals
after the loop together with the unconsumed samples, or none if the scripted
stream runs out. -/
def syncWaitLow (g : SenseGlobals) : List (Nat × Nat) → Option (SenseGlobals × List (Nat × Nat))
  | [] => none
  | (adc, _) :: rest =>
    let call := getAdcBooleanCall g adc
    if call.1 then syncWaitLow call.2 rest else some (call.2, rest)

/-- Second wait of synchronizeToRotation: spin while getAdcBoolean() returns
false; when an invocation returns true the function returns millis() at that
moment, or none if the scripted stream runs out. -/
def syncWaitHigh (g : SenseGlobals) : List (Nat × Nat) → Option Nat
  | [] => none
  | (adc, now) :: rest =>
    let call := getAdcBooleanCall g adc
    if call.1 then some now else syncWaitHigh call.2 rest

/-- Function synchronizeToRotation of the source over a finite scripted
sample stream: the first wait runs until getAdcBoolean() returns false, the
second until it returns true, and the time of that last invocation is
returned. -/
def synchronizeToRotation (g : SenseGlobals) (samples : List (Nat × Nat)) : Option Nat :=
  (syncWaitLow g samples).bind fun p => syncWaitHigh p.1 p.2

/-
Revolution timer (function loop of the source).
-/

/-- Globals read and written by one iteration of loop(): the persistent
adcState, the calibrated thresholds, the synchronization time startTime, the
time revolutionStart of the previous counted edge, and the 16-bit unsigned
revolution counter. -/
structure LoopState where
  adcState : Bool
  thresholdLow : Nat
  thresholdHigh : Nat
  startTime : Nat
  revolutionStart : Nat
  revolutions : Nat
deriving DecidableEq

/-- Data of the report line printed by loop() on a counted edge: the updated
revolution count, the interval since the previous edge in milliseconds, the
single-turn speed 1000.0 / interval and the average speed
revolutions * 1000.0 / totalInterval, both in revolutions per second,
modelled as exact rationals. -/
structure RevReport where
  revolutions : Nat
  revolutionInterval : Nat
  revSpeed : ℚ
  averageSpeed : ℚ
deriving DecidableEq

/-- One iteration of loop(), fed the raw sample read by getAdcBoolean and
the millis() value of the iteration: when the stored adcState is HIGH and
the freshly detected state is LOW, the counter increments, the interval and
speeds are computed and reported, and revolutionStart moves to the edge
time; in every case the iteration ends by storing the detected state into
adcState. -/
def loopStep (st : LoopState) (adc now : Nat) : LoopState × Option RevReport :=
  let senseState := getAdcBoolean adc st.adcState st.thresholdLow st.thresholdHigh
  if st.adcState && !senseState then
    let revolutions := (st.revolutions + 1) % UINT_MOD
    let revolutionInterval := usub32 now st.revolutionStart
    let totalInterval := usub32 now st.startTime
    ({ st with adcState := senseState, revolutions := revolutions, revolutionStart := now },
      some { revolutions := revolutions, revolutionInterval := revolutionInterval,
             revSpeed := 1000 / (revolutionInterval : ℚ),
             averageSpeed := (revolutions : ℚ) * 1000 / (totalInterval : ℚ) })
  else
    ({ st with adcState := senseState }, none)

/-- The steady-state control loop run over a finite list of (sample, millis)
pairs, collecting the printed report lines in order. -/
def loopRun (st : LoopState) (inputs : List (Nat × Nat)) : LoopState × List RevReport :=
  inputs.foldl
    (fun acc vt =>
      let step := loopStep acc.1 vt.1 vt.2
      (step.1, acc.2 ++ step.2.toList))
    (st, [])

/-
Helper lemmas: the wrapping arithmetic agrees with plain Nat arithmetic
whenever the operands are small enough, which the range hypotheses of the
claims guarantee.
-/

theorem uadd_small (a b : Nat) (h : a + b < UINT_MOD) : uadd a b = a + b := by
  simp only [uadd, UINT_MOD] at *
  omega

theorem usub_small (a b : Nat) (h1 : b ≤ a) (h2 : a < UINT_MOD) : usub a b = a - b := by
  simp only [usub, UINT_MOD] at *
  omega

theorem usub32_small (a b : Nat) (h1 : b ≤ a) (h2 : a < ULONG_MOD) : usub32 a b = a - b := by
  simp only [usub32, ULONG_MOD] at *
  omega

/-- calibrateBooleanSense in plain Nat arithmetic: on a well-formed observed
range (low at most high, high at most 1023) none of the 16-bit operations
wraps, so median, extent and the stored pair have their textbook values. -/
theorem calibrate_spec (t : ThresholdState) (h1 : t.low ≤ t.high) (h2 : t.high ≤ 1023) :
    medianOf t = (t.low + t.high) / 2 ∧
    extentOf t = t.high - t.low ∧
    halfBandOf (extentOf t) = min ((t.high - t.low) / 4) 40 ∧
    calibrateBooleanSense t =
      ⟨(t.low + t.high) / 2 - min ((t.high - t.low) / 4) 40,
        (t.low + t.high) / 2 + min ((t.high - t.low) / 4) 40⟩ := by
  obtain ⟨l, h⟩ := t
  simp only at h1 h2
  have hm : uadd l h = l + h := uadd_small l h (by simp only [UINT_MOD]; omega)
  have he : usub h l = h - l := usub_small h l h1 (by simp only [UINT_MOD]; omega)
  have hmed : medianOf ⟨l, h⟩ = (l + h) / 2 := by
    simp only [medianOf, hm]
  have hext : extentOf ⟨l, h⟩ = h - l := by
    simp only [extentOf, he]
  have hhb : halfBandOf (extentOf ⟨l, h⟩) = min ((h - l) / 4) 40 := by
    simp only [hext, halfBandOf, FIXED_DEAD_BAND]
  have hble : min ((h - l) / 4) 40 ≤ (l + h) / 2 := by
    have := Nat.min_le_left ((h - l) / 4) 40
    omega
  refine ⟨hmed, hext, hhb, ?_⟩
  simp only [calibrateBooleanSense, hmed, hhb]
  have hlo : usub ((l + h) / 2) (min ((h - l) / 4) 40) =
      (l + h) / 2 - min ((h - l) / 4) 40 :=
    usub_small _ _ hble (by simp only [UINT_MOD]; omega)
  have hhi : uadd ((l + h) / 2) (min ((h - l) / 4) 40) =
      (l + h) / 2 + min ((h - l) / 4) 40 := by
    have := Nat.min_le_right ((h - l) / 4) 40
    exact uadd_small _ _ (by simp only [UINT_MOD]; omega)
  rw [hlo, hhi]

/-- Derived thresholds never leave the observed range: the half band is at
most the median and the median plus the half band is at most the observed
high bound. -/
theorem band_within_range (l h : Nat) (h1 : l ≤ h) :
    min ((h - l) / 4) 40 ≤ (l + h) / 2 ∧
    (l + h) / 2 + min ((h - l) / 4) 40 ≤ h := by
  constructor
  · have := Nat.min_le_left ((h - l) / 4) 40
    omega
  · rcases Nat.le_total ((h - l) / 4) 40 with hc | hc
    · rw [Nat.min_eq_left hc]
      omega
    · rw [Nat.min_eq_right hc]
      omega

/-- C1: for low ≤ high thresholds, one invocation of getAdcBoolean returns
false when the previous state is HIGH and the sample is at or below the low
threshold, true when the previous state is LOW and the sample is at or above
the high threshold, and the previous state unchanged in every other case;
in particular any sample strictly inside the dead band leaves the state
unchanged. -/
theorem C1_hysteresis_detector (s lo hi : Nat) (prev : Bool) (h : lo ≤ hi) :
    (prev = true → s ≤ lo → getAdcBoolean s prev lo hi = false) ∧
    (prev = false → hi ≤ s → getAdcBoolean s prev lo hi = true) ∧
    (¬ (prev = true ∧ s ≤ lo) → ¬ (prev = false ∧ hi ≤ s) →
      getAdcBoolean s prev lo hi = prev) ∧
    (lo < s → s < hi → getAdcBoolean s prev lo hi = prev) := by
  cases prev <;>
    refine ⟨?_, ?_, ?_, ?_⟩ <;>
    intro h1 h2 <;>
    simp_all [getAdcBoolean]

/-- C1 witness: concrete instance with thresholds (460, 540), previous state
HIGH and sample 450, where the detector switches to LOW. -/
theorem C1_hysteresis_detector_witness :
    460 ≤ 540 ∧ getAdcBoolean 450 true 460 540 = false :=
  ⟨by decide, (C1_hysteresis_detector 450 460 540 true (by decide)).1 rfl (by decide)⟩

/-- C2 counterexample: the observed range (100, 101) has high > low, yet the
extent 1 makes the truncated half band 0, so calibrateBooleanSense stores the
pair (100, 100) and neither lowThreshold < median nor median < highThreshold
holds. -/
theorem C2_counterexample :
    100 < 101 ∧
    calibrateBooleanSense ⟨100, 101⟩ = ⟨100, 100⟩ ∧
    medianOf ⟨100, 101⟩ = 100 ∧
    ¬ (calibrateBooleanSense ⟨100, 101⟩).low < medianOf ⟨100, 101⟩ ∧
    ¬ medianOf ⟨100, 101⟩ < (calibrateBooleanSense ⟨100, 101⟩).high := by
  decide

/-- C2 (amended): for an observed range with high at least low + 4 and high
at most 1023, calibrateBooleanSense computes median = (low + high) / 2
rounding down, extent = high - low, halfBand = min (extent / 4) 40 (the
float product extent * 0.25 truncated on the assignment back to unsigned
int), stores the pair (median - halfBand, median + halfBand), and the strict
inequalities lowThreshold < median < highThreshold hold; the range
(100, 900) yields median 500, extent 800, halfBand 40 and thresholds
(460, 540). -/
theorem C2_threshold_derivation (t : ThresholdState)
    (h1 : t.low + 4 ≤ t.high) (h2 : t.high ≤ 1023) :
    (medianOf t = (t.low + t.high) / 2 ∧
      extentOf t = t.high - t.low ∧
      halfBandOf (extentOf t) = min ((t.high - t.low) / 4) 40 ∧
      calibrateBooleanSense t =
        ⟨medianOf t - halfBandOf (extentOf t), medianOf t + halfBandOf (extentOf t)⟩ ∧
      (calibrateBooleanSense t).low < medianOf t ∧
      medianOf t < (calibrateBooleanSense t).high) ∧
    (medianOf ⟨100, 900⟩ = 500 ∧ extentOf ⟨100, 900⟩ = 800 ∧
      halfBandOf (extentOf ⟨100, 900⟩) = 40 ∧
      calibrateBooleanSense ⟨100, 900⟩ = ⟨460, 540⟩) := by
  have hle : t.low ≤ t.high := by omega
  obtain ⟨hmed, hext, hhb, hcal⟩ := calibrate_spec t hle h2
  obtain ⟨hb1, hb2⟩ := band_within_range t.low t.high hle
  have hpos : 1 ≤ min ((t.high - t.low) / 4) 40 := by
    have h4 : 1 ≤ (t.high - t.low) / 4 := by omega
    omega
  refine ⟨⟨hmed, hext, hhb, ?_, ?_, ?_⟩, by decide⟩
  · simp only [hcal, hmed, hext, halfBandOf, FIXED_DEAD_BAND]
  · simp only [hcal, hmed, hext, halfBandOf, FIXED_DEAD_BAND]
    omega
  · simp only [hcal, hmed, hext, halfBandOf, FIXED_DEAD_BAND]
    omega

/-- C2 witness: the amended derivation theorem applied to the observed range
(100, 900). -/
theorem C2_threshold_derivation_witness :
    (100 + 4 ≤ 900 ∧ 900 ≤ 1023) ∧
    calibrateBooleanSense ⟨100, 900⟩ =
      ⟨medianOf ⟨100, 900⟩ - halfBandOf (extentOf ⟨100, 900⟩),
        medianOf ⟨100, 900⟩ + halfBandOf (extentOf ⟨100, 900⟩)⟩ :=
  ⟨by decide, (C2_threshold_derivation ⟨100, 900⟩ (by decide) (by decide)).1.2.2.2.1⟩

/-- C7 counterexample: calibrateBooleanSense overwrites the very array it
reads, so a second consecutive invocation starts from the first result
(460, 540) and moves the thresholds to (480, 520); the state after two
invocations differs from the state after one. -/
theorem C7_counterexample :
    calibrateBooleanSense ⟨100, 900⟩ = ⟨460, 540⟩ ∧
    calibrateBooleanSense (calibrateBooleanSense ⟨100, 900⟩) = ⟨480, 520⟩ ∧
    calibrateBooleanSense (calibrateBooleanSense ⟨100, 900⟩) ≠
      calibrateBooleanSense ⟨100, 900⟩ := by
  decide

/-- C7 (amended): the threshold derivation is a deterministic function of
the range it reads (equal ranges always give equal threshold pairs, there is
no hidden state), but because calibrateBooleanSense stores its result in the
same global threshold array it reads, running it a second time re-derives
from the first result and changes the thresholds: it is not idempotent as a
state transformer. -/
theorem C7_deterministic_not_idempotent :
    (∀ r1 r2 : ThresholdState, r1 = r2 →
      calibrateBooleanSense r1 = calibrateBooleanSense r2) ∧
    calibrateBooleanSense (calibrateBooleanSense ⟨100, 900⟩) ≠
      calibrateBooleanSense ⟨100, 900⟩ :=
  ⟨fun r1 r2 hr => hr ▸ rfl, by decide⟩

/-- C7 witness: determinism applied at the concrete range (100, 900). -/
theorem C7_deterministic_not_idempotent_witness :
    calibrateBooleanSense ⟨100, 900⟩ = calibrateBooleanSense ⟨100, 900⟩ :=
  C7_deterministic_not_idempotent.1 ⟨100, 900⟩ ⟨100, 900⟩ rfl

/-- C9 counterexample: on the inverted-extreme initial range (1023, 0) the
extent step threshold[true] - threshold[false] wraps around in 16-bit
unsigned arithmetic to 64513, leaving the raw sample domain [0, 1023], and
the half band then caps at 40 rather than collapsing to a zero-width band. -/
theorem C9_counterexample :
    extentOf ⟨1023, 0⟩ = 64513 ∧
    ¬ extentOf ⟨1023, 0⟩ ≤ 1023 ∧
    halfBandOf (extentOf ⟨1023, 0⟩) = 40 := by
  decide

/-- C9 (amended): for a well-formed observed range (low at most high, high
at most 1023) every arithmetic step of calibrateBooleanSense stays inside
the raw sample domain [0, 1023]; for the degenerate inverted-extreme range
(1023, 0), however, the extent wraps around to 64513 in 16-bit unsigned
arithmetic, the half band becomes the 40 cap instead of a zero-width band,
and the stored thresholds end up as (471, 551). -/
theorem C9_arithmetic_domain (t : ThresholdState)
    (h1 : t.low ≤ t.high) (h2 : t.high ≤ 1023) :
    (medianOf t ≤ 1023 ∧ extentOf t ≤ 1023 ∧ halfBandOf (extentOf t) ≤ 1023 ∧
      (calibrateBooleanSense t).low ≤ 1023 ∧
      (calibrateBooleanSense t).high ≤ 1023) ∧
    (extentOf ⟨1023, 0⟩ = 64513 ∧ halfBandOf (extentOf ⟨1023, 0⟩) = 40 ∧
      calibrateBooleanSense ⟨1023, 0⟩ = ⟨471, 551⟩) := by
  obtain ⟨hmed, hext, hhb, hcal⟩ := calibrate_spec t h1 h2
  obtain ⟨hb1, hb2⟩ := band_within_range t.low t.high h1
  refine ⟨⟨?_, ?_, ?_, ?_, ?_⟩, by decide⟩ <;>
    simp only [hcal, hmed, hext, halfBandOf, FIXED_DEAD_BAND] <;>
    omega

/-- C9 witness: the in-domain part applied to the full-scale range
(0, 1023). -/
theorem C9_arithmetic_domain_witness :
    (0 ≤ 1023 ∧ 1023 ≤ 1023) ∧
    (calibrateBooleanSense ⟨0, 1023⟩).low ≤ 1023 ∧
    (calibrateBooleanSense ⟨0, 1023⟩).high ≤ 1023 :=
  ⟨by decide,
    (C9_arithmetic_domain ⟨0, 1023⟩ (by decide) (by decide)).1.2.2.2.1,
    (C9_arithmetic_domain ⟨0, 1023⟩ (by decide) (by decide)).1.2.2.2.2⟩

/-- C10: for every observed range with low at most high at most 1023, the
half band is at most min (extent / 4) 40, at most the median, and the median
plus the half band is at most the observed high bound, so the stored pair
satisfies 0 ≤ lowThreshold ≤ highThreshold ≤ 1023 with no underflow below
the raw minimum and no overflow above the raw maximum. -/
theorem C10_threshold_bounds (t : ThresholdState)
    (h1 : t.low ≤ t.high) (h2 : t.high ≤ 1023) :
    halfBandOf (extentOf t) ≤ min ((t.high - t.low) / 4) 40 ∧
    halfBandOf (extentOf t) ≤ medianOf t ∧
    medianOf t + halfBandOf (extentOf t) ≤ t.high ∧
    calibrateBooleanSense t =
      ⟨medianOf t - halfBandOf (extentOf t), medianOf t + halfBandOf (extentOf t)⟩ ∧
    (calibrateBooleanSense t).low ≤ (calibrateBooleanSense t).high ∧
    (calibrateBooleanSense t).high ≤ 1023 := by
  obtain ⟨hmed, hext, hhb, hcal⟩ := calibrate_spec t h1 h2
  obtain ⟨hb1, hb2⟩ := band_within_range t.low t.high h1
  refine ⟨?_, ?_, ?_, ?_, ?_, ?_⟩ <;>
    simp only [hcal, hmed, hext, halfBandOf, FIXED_DEAD_BAND] <;>
    omega

/-- C10 witness: the bounds theorem applied to the observed range
(300, 700), whose derived thresholds are (460, 540). -/
theorem C10_threshold_bounds_witness :
    (300 ≤ 700 ∧ 700 ≤ 1023) ∧
    (calibrateBooleanSense ⟨300, 700⟩).low ≤ (calibrateBooleanSense ⟨300, 700⟩).high ∧
    (calibrateBooleanSense ⟨300, 700⟩).high ≤ 1023 :=
  ⟨by decide,
    (C10_threshold_bounds ⟨300, 700⟩ (by decide) (by decide)).2.2.2.2.1,
    (C10_threshold_bounds ⟨300, 700⟩ (by decide) (by decide)).2.2.2.2.2⟩

/-- C3: in every iteration of loop() a revolution is counted exactly when
the stored previous-iteration state is HIGH and the freshly detected state
is LOW; on such an edge the count increases by one, the reported interval is
the edge time minus the previous edge time, the single-turn speed is
1000 / interval and the average speed is count * 1000 / totalInterval, and
revolutionStart moves to the edge time; without an edge nothing is reported
and the counter and edge time are unchanged.  A run from startTime 1000 with
edges at 1500 and 2700 reports intervals [500, 1200], single-turn speeds
[2, 5/6] and average speeds [2, 20/17]; 5/6 and 20/17 round at four decimal
places to the quoted 0.8333 and 1.1765 revolutions per second. -/
theorem C3_revolution_timer (st : LoopState) (adc now : Nat)
    (h1 : st.revolutions + 1 < UINT_MOD)
    (h2 : st.startTime ≤ now) (h3 : st.revolutionStart ≤ now)
    (h4 : now < ULONG_MOD) :
    (((loopStep st adc now).2).isSome = true ↔
      (st.adcState = true ∧
        getAdcBoolean adc st.adcState st.thresholdLow st.thresholdHigh = false)) ∧
    (st.adcState = true →
      getAdcBoolean adc st.adcState st.thresholdLow st.thresholdHigh = false →
      (loopStep st adc now).2 =
        some { revolutions := st.revolutions + 1,
               revolutionInterval := now - st.revolutionStart,
               revSpeed := 1000 / ((now - st.revolutionStart : Nat) : ℚ),
               averageSpeed :=
                 ((st.revolutions + 1 : Nat) : ℚ) * 1000 / ((now - st.startTime : Nat) : ℚ) } ∧
      (loopStep st adc now).1.revolutions = st.revolutions + 1 ∧
      (loopStep st adc now).1.revolutionStart = now) ∧
    ((loopStep st adc now).2 = none →
      (loopStep st adc now).1.revolutions = st.revolutions ∧
      (loopStep st adc now).1.revolutionStart = st.revolutionStart) ∧
    ((loopRun ⟨true, 460, 540, 1000, 1000, 0⟩
        [(600, 1100), (400, 1500), (600, 2000), (400, 2700)]).2 =
      [⟨1, 500, 2, 2⟩, ⟨2, 1200, 5 / 6, 20 / 17⟩] ∧
      round ((5 : ℚ) / 6 * 10000) = 8333 ∧
      round ((20 : ℚ) / 17 * 10000) = 11765) := by
  have hmod : (st.revolutions + 1) % UINT_MOD = st.revolutions + 1 :=
    Nat.mod_eq_of_lt h1
  have hi1 : usub32 now st.revolutionStart = now - st.revolutionStart :=
    usub32_small now st.revolutionStart h3 h4
  have hi2 : usub32 now st.startTime = now - st.startTime :=
    usub32_small now st.startTime h2 h4
  obtain ⟨a, tl, th, s0, r0, n0⟩ := st
  dsimp only at hmod hi1 hi2 ⊢
  refine ⟨?_, ?_, ?_, ?_, ?_, ?_⟩
  · cases a
    · cases hS : getAdcBoolean adc false tl th <;> simp_all [loopStep]
    · cases hS : getAdcBoolean adc true tl th <;> simp_all [loopStep]
  · intro hA hS
    subst hA
    simp [loopStep, hS, hmod, hi1, hi2]
  · intro hnone
    cases hb : a && ! getAdcBoolean adc a tl th
    · simp [loopStep, hb]
    · simp [loopStep, hb] at hnone
  · norm_num [loopRun, loopStep, getAdcBoolean, usub32, ULONG_MOD, UINT_MOD,
      List.foldl]
  · rw [round_eq]
    norm_num
  · rw [round_eq]
    norm_num

/-- C3 witness: one loop iteration at the state left by synchronization
(adcState HIGH, thresholds (460, 540), startTime and revolutionStart 1000)
with sample 400 read at millis 1500: the edge is counted and reported with
interval 500. -/
theorem C3_revolution_timer_witness :
    (0 + 1 < UINT_MOD ∧ 1000 ≤ 1500 ∧ 1500 < ULONG_MOD) ∧
    ((loopStep ⟨true, 460, 540, 1000, 1000, 0⟩ 400 1500).2 =
      some { revolutions := 0 + 1,
             revolutionInterval := 1500 - 1000,
             revSpeed := 1000 / ((1500 - 1000 : Nat) : ℚ),
             averageSpeed := ((0 + 1 : Nat) : ℚ) * 1000 / ((1500 - 1000 : Nat) : ℚ) } ∧
      (loopStep ⟨true, 460, 540, 1000, 1000, 0⟩ 400 1500).1.revolutions = 0 + 1 ∧
      (loopStep ⟨true, 460, 540, 1000, 1000, 0⟩ 400 1500).1.revolutionStart = 1500) :=
  ⟨⟨by decide, by decide, by decide⟩,
    (C3_revolution_timer ⟨true, 460, 540, 1000, 1000, 0⟩ 400 1500
      (by decide) (by decide) (by decide) (by decide)).2.1 rfl (by decide)⟩

/-- C4: the source of synchronizeToRotation never stores the value returned
by getAdcBoolean back into adcState, so during the whole synchronization the
detector keeps using the stale HIGH previous state; with thresholds
(460, 540) and samples 400 then 500, the second wait terminates on the
sample 500 at millis 7, although 500 is strictly below the high threshold
540 and a detector whose previous state had really been LOW would have
returned LOW there and kept waiting. -/
theorem C4_sync_ends_in_dead_band :
    synchronizeToRotation ⟨true, 460, 540⟩ [(400, 2), (500, 7)] = some 7 ∧
    500 < 540 ∧
    getAdcBoolean 500 false 460 540 = false := by
  decide

/-- C5 counterexample: inside synchronizeToRotation an invocation of
getAdcBoolean that returns false leaves the stored adcState at true, so
right after that call the stored state differs from the returned value. -/
theorem C5_counterexample :
    (getAdcBooleanCall ⟨true, 460, 540⟩ 400).1 = false ∧
    ¬ (getAdcBooleanCall ⟨true, 460, 540⟩ 400).2.adcState = false := by
  decide

/-- C5 (amended): getAdcBoolean itself writes no global; the stored adcState
is updated once per iteration of loop(), whose final assignment stores
exactly the value the detector returned in that iteration, so inside loop()
each call uses the previous iteration's result as its previous state — but
the invocations made from synchronizeToRotation leave adcState untouched. -/
theorem C5_state_update_per_loop_iteration :
    (∀ (st : LoopState) (adc now : Nat),
      (loopStep st adc now).1.adcState =
        getAdcBoolean adc st.adcState st.thresholdLow st.thresholdHigh) ∧
    (∀ (g : SenseGlobals) (adc : Nat), (getAdcBooleanCall g adc).2 = g) := by
  refine ⟨fun st adc now => ?_, fun g adc => rfl⟩
  cases hb : st.adcState &&
      ! getAdcBoolean adc st.adcState st.thresholdLow st.thresholdHigh <;>
    simp [loopStep, hb]

/-- C6: the flag newLimit of getActiveSenseRange is initialized once before
the sampling loop and never reset inside it, so after the first iteration
that changes a bound every later iteration prints a progress line too: on
the scripted samples 500 then 500 the second iteration changes neither bound
(the state stays (500, 500, true)) yet a second report is emitted, so
reporting does not stop when the observed range stabilizes. -/
theorem C6_report_without_change :
    (getActiveSenseRange [(500, 3), (500, 8)]).2 =
      [⟨500, 500, 3⟩, ⟨500, 500, 8⟩] ∧
    (getActiveSenseRange [(500, 3)]).1 = ⟨500, 500, true⟩ ∧
    rangeStep ⟨500, 500, true⟩ 500 8 = (⟨500, 500, true⟩, some ⟨500, 500, 8⟩) := by
  decide

/-- C8: loop() has no guard for a zero revolution interval: when the edge
lands at the same millisecond as revolutionStart the reading is still
reported (the report is some, not skipped) with revolutionInterval 0, and
the speed fields are computed by dividing by that zero interval (the target
IEEE doubles produce infinity there; the rational model returns 0 for the
division by zero). -/
theorem C8_zero_interval_not_skipped :
    (loopStep ⟨true, 460, 540, 1000, 1000, 0⟩ 400 1000).2 =
      some { revolutions := 1, revolutionInterval := 0,
             revSpeed := 1000 / (0 : ℚ),
             averageSpeed := 1 * 1000 / (0 : ℚ) } ∧
    ((loopStep ⟨true, 460, 540, 1000, 1000, 0⟩ 400 1000).2).isSome = true := by
  constructor
  · norm_num [loopStep, getAdcBoolean, usub32, ULONG_MOD, UINT_MOD]
  · rfl

end ServoCalib
